import Mathlib

/-!
Verification of the exa-cli invocation framework (CLI dispatcher, input
resolver, tool registry, error normalizer) against a shallow embedding of
the TypeScript sources in `src/`.

Host-runtime primitives (the file system reached through `Bun.file`, the
process stdin stream, `JSON.parse`, the HTTP layer reached through axios)
are modelled as explicit parameters of the embedding; everything else is
translated directly from the source files.

JavaScript numbers are modelled as `Int` wherever only integral values flow
(status codes, result counts, character budgets); the one place where
non-finiteness of a number is observed (`Number.isFinite(stdin.size)`) uses
a dedicated `JsNum` type with explicit infinity/NaN constructors.
-/

/-- A JavaScript number as observed by `Number.isFinite`: finite values
are collapsed to integers (no claim depends on fractional values), and the
non-finite values `Infinity`, `-Infinity`, `NaN` are explicit. -/
inductive JsNum where
  | fin (n : Int)
  | posInf
  | negInf
  | nan
deriving DecidableEq

/-- `Number.isFinite` on a `JsNum`. -/
def JsNum.isFinite : JsNum → Bool
  | .fin _ => true
  | _ => false

/-- A JSON value, used both for parsed `--input` payloads and for the JSON
documents the CLI writes.  Numbers are integral (see module comment). -/
inductive JsonVal where
  | null
  | bool (b : Bool)
  | num (n : Int)
  | str (s : String)
  | arr (xs : List JsonVal)
  | obj (fields : List (String × JsonVal))

/-- JavaScript truthiness of a JSON value (`undefined` is modelled as
`null`; both are falsy, as are `false`, `0` and `""`). -/
def jsTruthy : JsonVal → Bool
  | .null => false
  | .bool b => b
  | .num n => n != 0
  | .str s => s != ""
  | .arr _ => true
  | .obj _ => true

/-- Property access `v.k` on a JSON value: `undefined` (modelled `.null`)
when `v` is not an object or lacks the key. -/
def jsField (v : JsonVal) (k : String) : JsonVal :=
  match v with
  | .obj fields => (fields.lookup k).getD .null
  | _ => .null

/-- The axios response attached to a recognized remote-call failure:
`status` is the HTTP status (always a number on a real axios response) and
`data` the optional response body. -/
structure AxiosResponse where
  status : Int
  data : Option JsonVal

/-- A caught JavaScript value.  `axiosErr` is a value for which
`axios.isAxiosError` holds (such values are `Error` instances, carrying an
optional response); `error` is any other `Error` instance (its `message`);
`other` is any other thrown value, carried as its `String(value)` form. -/
inductive JsThrown where
  | axiosErr (response : Option AxiosResponse) (message : String)
  | error (message : String)
  | other (stringed : String)

/-- `error instanceof Error ? error.message : String(error)` — the generic
fallback used by the dispatcher and by every tool's catch block.  Axios
errors are `Error` instances, so they contribute their `message`. -/
def errMessage : JsThrown → String
  | .axiosErr _ m => m
  | .error m => m
  | .other s => s

/-- Escape one character the way `JSON.stringify` does for the characters
that occur in this development (quote, backslash, the common control
characters); other characters pass through unchanged. -/
def escapeJsonChar (c : Char) : String :=
  if c = '"' then "\\\""
  else if c = '\\' then "\\\\"
  else if c = '\n' then "\\n"
  else if c = '\t' then "\\t"
  else if c = '\r' then "\\r"
  else String.singleton c

/-- String-body escaping for JSON serialization. -/
def escapeJsonString (s : String) : String :=
  s.foldl (fun acc c => acc ++ escapeJsonChar c) ""

mutual
/-- Compact `JSON.stringify` (host primitive, modelled). -/
def stringifyJson : JsonVal → String
  | .null => "null"
  | .bool b => if b then "true" else "false"
  | .num n => toString n
  | .str s => "\"" ++ escapeJsonString s ++ "\""
  | .arr xs => "[" ++ stringifyJsonList xs ++ "]"
  | .obj fields => "\x7b" ++ stringifyJsonFields fields ++ "\x7d"

def stringifyJsonList : List JsonVal → String
  | [] => ""
  | [x] => stringifyJson x
  | x :: xs => stringifyJson x ++ "," ++ stringifyJsonList xs

def stringifyJsonFields : List (String × JsonVal) → String
  | [] => ""
  | [(k, v)] => "\"" ++ escapeJsonString k ++ "\":" ++ stringifyJson v
  | (k, v) :: fields =>
      "\"" ++ escapeJsonString k ++ "\":" ++ stringifyJson v ++ ","
        ++ stringifyJsonFields fields
end

/-- The `StdinLike` shape of `src/cli.ts` / `src/cli/io.ts`: optional
`isTTY` flag, optional numeric `size`, and up to three drain capabilities.
Each capability field, when present, carries the outcome the host would
deliver through it: `textFn` the result of `stdin.text()`, `streamFn` the
result of reading `stdin.stream()` to completion, `onFn` the `data` chunks
pushed before the terminating signal together with an error value when the
`error` event (rather than `end`) fires. -/
structure StdinLike where
  isTTY : Option Bool := none
  size : Option JsNum := none
  textFn : Option (Except JsThrown String) := none
  streamFn : Option (Except JsThrown String) := none
  onFn : Option (List (Option String) × Option JsThrown) := none

/-- `readStdin` of `src/cli.ts`: probe `text()`, then `stream()`, then the
event interface (concatenating `data` chunks, `chunk ?? ""` for undefined
chunks, resolving on `end` and rejecting on `error`), else return `""`. -/
def readStdin (stdin : StdinLike) : Except JsThrown String :=
  match stdin.textFn with
  | some r => r
  | none =>
    match stdin.streamFn with
    | some r => r
    | none =>
      match stdin.onFn with
      | some (chunks, errored) =>
          let data := chunks.foldl (fun acc c => acc ++ c.getD "") ""
          match errored with
          | some e => .error e
          | none => .ok data
      | none => .ok ""

/-- `CliOptions` of `src/cli.ts`.  The three boolean flags are only ever
set to `true` or left `undefined`; both states are captured by `Bool` with
default `false`.  The string-valued flags may be set to `undefined` when a
value flag ends the argument list; that state is indistinguishable from
"absent" everywhere downstream, so both are `none`. -/
structure CliOptions where
  input : Option String := none
  inputFile : Option String := none
  apiKey : Option String := none
  pretty : Bool := false
  listTools : Bool := false
  help : Bool := false
deriving DecidableEq

/-- `ToolConfig` of `src/tools/toolTypes.ts`. -/
structure ToolConfig where
  exaApiKey : Option String := none

/-- `parseArgs` of `src/cli.ts`, as the loop over the remaining argument
list: empty tokens are skipped, value flags consume the next token verbatim
(`args.shift()`, which is `undefined` at the end of the list), and the
first other token becomes the tool identifier; later ones are ignored. -/
def parseArgsLoop : List String → CliOptions → Option String → Option String × CliOptions
  | [], options, toolId => (toolId, options)
  | arg :: rest, options, toolId =>
    if arg = "" then parseArgsLoop rest options toolId
    else if arg = "--help" ∨ arg = "-h" then
      parseArgsLoop rest { options with help := true } toolId
    else if arg = "--list-tools" then
      parseArgsLoop rest { options with listTools := true } toolId
    else if arg = "--pretty" then
      parseArgsLoop rest { options with pretty := true } toolId
    else if arg = "--api-key" then
      match rest with
      | [] => parseArgsLoop [] { options with apiKey := none } toolId
      | v :: rest2 => parseArgsLoop rest2 { options with apiKey := some v } toolId
    else if arg = "--input" ∨ arg = "-i" then
      match rest with
      | [] => parseArgsLoop [] { options with input := none } toolId
      | v :: rest2 => parseArgsLoop rest2 { options with input := some v } toolId
    else if arg = "--input-file" then
      match rest with
      | [] => parseArgsLoop [] { options with inputFile := none } toolId
      | v :: rest2 => parseArgsLoop rest2 { options with inputFile := some v } toolId
    else
      match toolId with
      | none => parseArgsLoop rest options (some arg)
      | some _ => parseArgsLoop rest options toolId

/-- `parseArgs` of `src/cli.ts`. -/
def parseArgs (argv : List String) : Option String × CliOptions :=
  parseArgsLoop argv {} none

/-- The environment a tool handler reaches through axios: one HTTP POST per
invocation, `endpoint → request body → response.data` (a rejection carries
the caught value; an `undefined` response body is modelled as `.null`). -/
def HttpEnv : Type := String → JsonVal → Except JsThrown JsonVal

/-- The host runtime as seen by one CLI invocation: the file system behind
`Bun.file(path).text()`, the stdin stream, the `JSON.parse` primitive, and
the HTTP layer behind axios. -/
structure CliEnv where
  fs : String → Except JsThrown String
  stdin : StdinLike := {}
  jsonParse : String → Except JsThrown JsonVal
  http : HttpEnv

/-- `String.prototype.trim` (host primitive, modelled): strip leading and
trailing whitespace.  (Structurally recursive so that concrete witnesses
reduce definitionally.) -/
def jsTrim (s : String) : String :=
  ⟨((s.data.dropWhile Char.isWhitespace).reverse.dropWhile Char.isWhitespace).reverse⟩

/-- `String.prototype.startsWith("@")` — the only prefix probe the CLI
performs.  (First-character check, structurally recursive so that concrete
witnesses reduce definitionally.) -/
def startsWithAt (s : String) : Bool :=
  match s.data with
  | c :: _ => c = '@'
  | [] => false

/-- `String.prototype.slice(1)` (host primitive, modelled): drop the
leading character. -/
def jsSliceOne (s : String) : String :=
  ⟨s.data.drop 1⟩

/-- `resolveInput` of `src/cli.ts` (identical in `src/cli/io.ts`):
truthiness-guarded precedence over `--input-file`, the `@file` form of
`--input`, the literal `--input`, then stdin gated by the terminal-ness
chain `isTTY` flag → non-finite `size` → not-a-terminal. -/
def resolveInput (env : CliEnv) (options : CliOptions) : Except JsThrown (Option String) :=
  if options.inputFile.getD "" ≠ "" then
    (env.fs (options.inputFile.getD "")).map some
  else if startsWithAt (options.input.getD "") then
    (env.fs (jsSliceOne (options.input.getD ""))).map some
  else if options.input.getD "" ≠ "" then
    .ok (some (options.input.getD ""))
  else
    let stdinIsTTY :=
      match env.stdin.isTTY with
      | some b => b
      | none =>
        match env.stdin.size with
        | some n => !n.isFinite
        | none => false
    if !stdinIsTTY then
      (readStdin env.stdin).map fun stdinData =>
        if (jsTrim stdinData).length ≠ 0 then some stdinData else none
    else
      .ok none

/-- Two-space padding at nesting depth `d`, for the indented serializer. -/
def jsonPad (d : Nat) : String :=
  String.join (List.replicate d "  ")

mutual
/-- `JSON.stringify(v, null, 2)` (host primitive, modelled): two-space
indented serialization, used by tool handlers for success content. -/
def stringifyJsonIndent (d : Nat) : JsonVal → String
  | .arr [] => "[]"
  | .arr xs =>
      "[\n" ++ stringifyJsonIndentList (d + 1) xs ++ "\n" ++ jsonPad d ++ "]"
  | .obj [] => "\x7b\x7d"
  | .obj fields =>
      "\x7b\n" ++ stringifyJsonIndentFields (d + 1) fields ++ "\n" ++ jsonPad d ++ "\x7d"
  | v => stringifyJson v

def stringifyJsonIndentList (d : Nat) : List JsonVal → String
  | [] => ""
  | [x] => jsonPad d ++ stringifyJsonIndent d x
  | x :: xs =>
      jsonPad d ++ stringifyJsonIndent d x ++ ",\n" ++ stringifyJsonIndentList d xs

def stringifyJsonIndentFields (d : Nat) : List (String × JsonVal) → String
  | [] => ""
  | [(k, v)] =>
      jsonPad d ++ "\"" ++ escapeJsonString k ++ "\": " ++ stringifyJsonIndent d v
  | (k, v) :: fields =>
      jsonPad d ++ "\"" ++ escapeJsonString k ++ "\": " ++ stringifyJsonIndent d v
        ++ ",\n" ++ stringifyJsonIndentFields d fields
end

/-- One content block of a `ToolResult` (`src/tools/toolTypes.ts`).  The
`type` discriminant is the constant `"text"` on every block the program
ever builds, so only the text is carried; `ContentBlock.toJson` restores
the discriminant. -/
structure ContentBlock where
  text : String

/-- `ToolResult` of `src/tools/toolTypes.ts`: ordered content blocks plus
the optional failure flag (`isError?: boolean`). -/
structure ToolResult where
  content : List ContentBlock
  isError : Option Bool := none

/-- The JSON document `JSON.stringify` produces for one content block. -/
def ContentBlock.toJson (b : ContentBlock) : JsonVal :=
  .obj [("type", .str "text"), ("text", .str b.text)]

/-- The JSON document `JSON.stringify` produces for a `ToolResult`; an
`undefined` failure flag is omitted, exactly as `JSON.stringify` drops
`undefined` properties. -/
def ToolResult.toJson (r : ToolResult) : JsonVal :=
  .obj
    (("content", .arr (r.content.map ContentBlock.toJson)) ::
      (match r.isError with
       | some b => [("isError", .bool b)]
       | none => []))

/-- The `statusCode` component of `AxiosErrorInfo`
(`src/utils/axiosError.ts`): `number | string`, where the only string ever
stored is the literal `"unknown"`. -/
inductive StatusCode where
  | num (n : Int)
  | unknown
deriving DecidableEq

/-- How a `StatusCode` renders inside a template literal. -/
def StatusCode.render : StatusCode → String
  | .num n => toString n
  | .unknown => "unknown"

/-- `AxiosErrorInfo` of `src/utils/axiosError.ts`. -/
structure AxiosErrorInfo where
  statusCode : StatusCode
  message : String
  responseBody : Option String

/-- `getResponseMessage` of `src/utils/axiosError.ts`: the body's `message`
field when the body is a non-null object carrying a string there.  (A JSON
array is `typeof "object"` but has no `message` key; primitives and an
absent body yield `undefined`.) -/
def getResponseMessage (data : Option JsonVal) : Option String :=
  match data with
  | some (.obj fields) =>
    match fields.lookup "message" with
    | some (.str s) => some s
    | _ => none
  | _ => none

/-- `getAxiosErrorInfo` of `src/utils/axiosError.ts`: `undefined` unless
`axios.isAxiosError(error)`; otherwise status (`response?.status ??
"unknown"`), message (`body message ?? error.message`), and the optional
raw-or-serialized response body. -/
def getAxiosErrorInfo (e : JsThrown) : Option AxiosErrorInfo :=
  match e with
  | .axiosErr response msg =>
      let data := response.bind (·.data)
      let statusCode : StatusCode :=
        match response with
        | some r => .num r.status
        | none => .unknown
      let responseMessage := getResponseMessage data
      let message := responseMessage.getD msg
      let responseBody : Option String :=
        data.map fun d =>
          match d with
          | .str s => s
          | _ => stringifyJson d
      some { statusCode := statusCode, message := message, responseBody := responseBody }
  | _ => none

/-- `logAxiosError` of `src/utils/axiosError.ts`, as the list of lines
pushed to the logger: the optional `Response body:` line (only when the
option requests it and a body exists), then the `Axios error` line. -/
def logAxiosError (info : AxiosErrorInfo) (includeResponseBody : Bool) : List String :=
  (if includeResponseBody then
     match info.responseBody with
     | some body => [s!"Response body: {body}"]
     | none => []
   else []) ++
  [s!"Axios error ({info.statusCode.render}): {info.message}"]

/-- One tool of the registry (`ToolDefinition` of `src/tools/toolTypes.ts`).
`validate` is `z.object(tool.schema).parse` — the dispatcher builds that
validator from the tool's raw schema, so the embedding stores the composed
parse-or-throw function; its success value is the bound argument object.
`handler` runs against the HTTP layer and either returns a `ToolResult` or
rejects. -/
structure ToolDefinition where
  id : String
  description : String
  validate : JsonVal → Except JsThrown JsonVal
  handler : HttpEnv → JsonVal → Except JsThrown ToolResult

/-- Read a validated string field off the bound argument object. -/
def strField (args : JsonVal) (k : String) : String :=
  match jsField args k with
  | .str s => s
  | _ => ""

/-- The `value || dflt` idiom on an optional numeric field: absent or
falsy (`0`) yields the default. -/
def numFieldOr (args : JsonVal) (k : String) (dflt : Int) : Int :=
  match jsField args k with
  | .num n => if n != 0 then n else dflt
  | _ => dflt

/-- Modelled from the spec: `src/tools/config.ts` is not under `src/`.  The
constants it must provide are pinned by the tool sources and schema
descriptions — default of 3000 characters, default of 5 results, and the
search endpoint every search-shaped tool posts to. -/
def DEFAULT_MAX_CHARACTERS : Int := 3000

/-- Modelled from the spec: default result count (`src/tools/config.ts`
absent; "default: 5" per the LinkedIn schema description). -/
def DEFAULT_NUM_RESULTS : Int := 5

/-- Modelled from the spec: the search endpoint named by
`API_CONFIG.ENDPOINTS.SEARCH` (`src/tools/config.ts` absent). -/
def ENDPOINT_SEARCH : String := "/search"

/-- The catch block of `createCrawlingTool` (`src/tools/crawling.ts`,
lines 82–105): a recognized axios failure becomes
`Crawling error (<status>): <message>`, anything else
`Crawling error: <message-or-String(value)>`, always flagged `isError`. -/
def crawlingCatch (e : JsThrown) : ToolResult :=
  match getAxiosErrorInfo e with
  | some axiosInfo =>
      { content := [⟨s!"Crawling error ({axiosInfo.statusCode.render}): {axiosInfo.message}"⟩],
        isError := some true }
  | none =>
      { content := [⟨s!"Crawling error: {errMessage e}"⟩], isError := some true }

/-- The catch block of `createLinkedInSearchTool`
(`src/tools/linkedInSearch.ts`, lines 103–126). -/
def linkedInSearchCatch (e : JsThrown) : ToolResult :=
  match getAxiosErrorInfo e with
  | some axiosInfo =>
      { content :=
          [⟨s!"LinkedIn search error ({axiosInfo.statusCode.render}): {axiosInfo.message}"⟩],
        isError := some true }
  | none =>
      { content := [⟨s!"LinkedIn search error: {errMessage e}"⟩], isError := some true }

/-- Modelled from the spec: the shared three-way catch block that §4.4
requires every tool handler to reproduce with its own label; used for the
six tools whose sources are not under `src/` (their labels are pinned by
the test suite). -/
def toolCatch (label : String) (e : JsThrown) : ToolResult :=
  match getAxiosErrorInfo e with
  | some axiosInfo =>
      { content := [⟨s!"{label} error ({axiosInfo.statusCode.render}): {axiosInfo.message}"⟩],
        isError := some true }
  | none =>
      { content := [⟨s!"{label} error: {errMessage e}"⟩], isError := some true }

/-- `z.object(crawlingSchema).parse` (`src/tools/crawling.ts`): `url` a
required string, `maxCharacters` an optional number, unknown keys
stripped; a failure throws a `ZodError` (an `Error`; the issue dump that
forms its message is summarized, no claim constrains its text). -/
def crawlingValidate : JsonVal → Except JsThrown JsonVal
  | .obj fields =>
      (match fields.lookup "url" with
       | some (.str u) =>
           match fields.lookup "maxCharacters" with
           | some (.num n) => .ok (.obj [("url", .str u), ("maxCharacters", .num n)])
           | none => .ok (.obj [("url", .str u)])
           | some _ => .error (.error "ZodError: expected number at maxCharacters")
       | _ => .error (.error "ZodError: expected string at url"))
  | _ => .error (.error "ZodError: expected object")

/-- `z.object(linkedInSearchSchema).parse` (`src/tools/linkedInSearch.ts`):
`query` a required string, `searchType` an optional member of
`profiles | companies | all`, `numResults` an optional number. -/
def linkedInSearchValidate : JsonVal → Except JsThrown JsonVal
  | .obj fields =>
      (match fields.lookup "query" with
       | some (.str q) =>
           match fields.lookup "searchType" with
           | some (.str t) =>
               if t = "profiles" ∨ t = "companies" ∨ t = "all" then
                 match fields.lookup "numResults" with
                 | some (.num n) =>
                     .ok (.obj [("query", .str q), ("searchType", .str t), ("numResults", .num n)])
                 | none => .ok (.obj [("query", .str q), ("searchType", .str t)])
                 | some _ => .error (.error "ZodError: expected number at numResults")
               else .error (.error "ZodError: invalid enum value at searchType")
           | none =>
               match fields.lookup "numResults" with
               | some (.num n) => .ok (.obj [("query", .str q), ("numResults", .num n)])
               | none => .ok (.obj [("query", .str q)])
               | some _ => .error (.error "ZodError: expected number at numResults")
           | some _ => .error (.error "ZodError: invalid enum value at searchType")
       | _ => .error (.error "ZodError: expected string at query"))
  | _ => .error (.error "ZodError: expected object")

/-- `createCrawlingTool` of `src/tools/crawling.ts`.  The logger and
checkpoint calls are pure telemetry and are omitted; the axios instance is
reduced to one POST against the modelled HTTP layer (headers carry only
credentials, which no claim observes). -/
def createCrawlingTool (_config : Option ToolConfig) : ToolDefinition :=
  { id := "crawling_exa",
    description := "Extract and crawl content from specific URLs using Exa AI - retrieves full text content, metadata, and structured information from web pages. Ideal for extracting detailed content from known URLs.",
    validate := crawlingValidate,
    handler := fun http args =>
      let url := strField args "url"
      let crawlRequest : JsonVal :=
        .obj [("ids", .arr [.str url]),
              ("text", .obj [("maxCharacters",
                .num (numFieldOr args "maxCharacters" DEFAULT_MAX_CHARACTERS))]),
              ("livecrawl", .str "preferred")]
      .ok
        (match http "/contents" crawlRequest with
         | .ok data =>
             if !jsTruthy data || !jsTruthy (jsField data "results") then
               { content := [⟨"No content found for the provided URL."⟩] }
             else
               { content := [⟨stringifyJsonIndent 0 data⟩] }
         | .error e => crawlingCatch e) }

/-- `createLinkedInSearchTool` of `src/tools/linkedInSearch.ts`:
`profiles` targets `linkedin.com/in` with keyword search, `companies`
targets `linkedin.com/company` with keyword search, anything else (the
`all` default) targets `linkedin.com` with neural search. -/
def createLinkedInSearchTool (_config : Option ToolConfig) : ToolDefinition :=
  { id := "linkedin_search_exa",
    description := "Search LinkedIn profiles and companies using Exa AI - finds professional profiles, company pages, and business-related content on LinkedIn. Useful for networking, recruitment, and business research.",
    validate := linkedInSearchValidate,
    handler := fun http args =>
      let searchQuery := strField args "query"
      let branch : List String × String :=
        match jsField args "searchType" with
        | .str "profiles" => (["linkedin.com/in"], "keyword")
        | .str "companies" => (["linkedin.com/company"], "keyword")
        | _ => (["linkedin.com"], "neural")
      let searchRequest : JsonVal :=
        .obj [("query", .str searchQuery),
              ("type", .str branch.2),
              ("numResults", .num (numFieldOr args "numResults" DEFAULT_NUM_RESULTS)),
              ("contents", .obj
                [("text", .obj [("maxCharacters", .num DEFAULT_MAX_CHARACTERS)]),
                 ("livecrawl", .str "preferred")]),
              ("includeDomains", .arr (branch.1.map .str))]
      .ok
        (match http ENDPOINT_SEARCH searchRequest with
         | .ok data =>
             if !jsTruthy data || !jsTruthy (jsField data "results") then
               { content := [⟨"No LinkedIn content found. Please try a different query."⟩] }
             else
               { content := [⟨stringifyJsonIndent 0 data⟩] }
         | .error e => linkedInSearchCatch e) }

/-- Modelled from the spec: the schema of a tool whose source is absent
from `src/` — required string fields and required numeric fields per
`src/tools/toolArgs.ts`, optional fields unchecked, value passed through
("parse-or-fail with a descriptive message", §9). -/
def specValidate (strKeys : List String) (numKeys : List String)
    (v : JsonVal) : Except JsThrown JsonVal :=
  match v with
  | .obj fields =>
      if strKeys.all (fun k =>
            match fields.lookup k with
            | some (.str _) => true
            | _ => false)
          && numKeys.all (fun k =>
            match fields.lookup k with
            | some (.num _) => true
            | _ => false) then
        .ok v
      else .error (.error "ZodError: invalid arguments")
  | _ => .error (.error "ZodError: expected object")

/-- Modelled from the spec: builder for the six tools whose sources are
not under `src/` (`webSearch.ts`, `deepSearch.ts`, `companyResearch.ts`,
`deepResearchStart.ts`, `deepResearchCheck.ts`, `exaCode.ts`).  Per §6
each issues one HTTP request; the success reshaping is tool business
logic (out of scope, §1) and is modelled as one serialized-response text
block; every failure goes through the shared three-way catch (§4.4) with
the tool's label, as pinned by the test suite. -/
def specTool (id description label endpoint : String)
    (strKeys numKeys : List String) : ToolDefinition :=
  { id := id,
    description := description,
    validate := specValidate strKeys numKeys,
    handler := fun http args =>
      .ok
        (match http endpoint args with
         | .ok data => { content := [⟨stringifyJsonIndent 0 data⟩] }
         | .error e => toolCatch label e) }

/-- Modelled from the spec: `src/tools/webSearch.ts` is absent. -/
def createWebSearchTool (_config : Option ToolConfig) : ToolDefinition :=
  specTool "web_search_exa" "Search the web using Exa AI" "Search"
    ENDPOINT_SEARCH ["query"] []

/-- Modelled from the spec: `src/tools/deepSearch.ts` is absent. -/
def createDeepSearchTool (_config : Option ToolConfig) : ToolDefinition :=
  specTool "deep_search_exa" "Deep search using Exa AI" "Deep search"
    ENDPOINT_SEARCH ["objective"] []

/-- Modelled from the spec: `src/tools/companyResearch.ts` is absent. -/
def createCompanyResearchTool (_config : Option ToolConfig) : ToolDefinition :=
  specTool "company_research_exa" "Company research using Exa AI" "Company research"
    ENDPOINT_SEARCH ["companyName"] []

/-- Modelled from the spec: `src/tools/deepResearchStart.ts` is absent. -/
def createDeepResearchStartTool (_config : Option ToolConfig) : ToolDefinition :=
  specTool "deep_researcher_start" "Start a deep research task" "Research start"
    "/research/tasks" ["instructions", "model"] []

/-- Modelled from the spec: `src/tools/deepResearchCheck.ts` is absent;
the success-path texts are pinned by its staged test (`Deep research
completed` / `No report generated` / `Research in progress` /
`Deep research task failed` / `Unknown status`, and the error-flagged
`Failed to check research task status` for a missing body). -/
def deepResearchCheckSuccess (data : JsonVal) : ToolResult :=
  if !jsTruthy data then
    { content := [⟨"Failed to check research task status"⟩], isError := some true }
  else
    match jsField data "status" with
    | .str "completed" =>
        let report : String :=
          match jsField (jsField data "data") "report" with
          | .str s => s
          | _ => "No report generated"
        { content := [⟨s!"Deep research completed. {report}"⟩] }
    | .str "running" => { content := [⟨"Research in progress"⟩] }
    | .str "failed" => { content := [⟨"Deep research task failed"⟩] }
    | _ => { content := [⟨"Unknown status"⟩] }

/-- Modelled from the spec: the catch block of the absent
`src/tools/deepResearchCheck.ts`.  Its staged test pins a special case the
shared three-way shape does not have: a recognized remote failure with
response status 404 yields text containing `Task not found` (the test pins
only the substring; the message is modelled as exactly that text), while
every other failure follows the three-way shape with the
`Research check` label. -/
def deepResearchCheckCatch (e : JsThrown) : ToolResult :=
  match getAxiosErrorInfo e with
  | some axiosInfo =>
      if axiosInfo.statusCode = .num 404 then
        { content := [⟨"Task not found"⟩], isError := some true }
      else
        { content :=
            [⟨s!"Research check error ({axiosInfo.statusCode.render}): {axiosInfo.message}"⟩],
          isError := some true }
  | none =>
      { content := [⟨s!"Research check error: {errMessage e}"⟩], isError := some true }

/-- Does a caught value carry a recognized remote failure with response
status 404?  (The guard of `deepResearchCheckCatch`'s special case.) -/
def isStatus404 (e : JsThrown) : Bool :=
  match getAxiosErrorInfo e with
  | some info => info.statusCode == .num 404
  | none => false

/-- Modelled from the spec: `src/tools/deepResearchCheck.ts` is absent;
id pinned by `TOOL_IDS`, arguments by `toolArgs.ts` (`taskId: string`),
handler behavior by the staged deepResearchCheck test (the poll loop and
the GET verb collapse into the single modelled HTTP call). -/
def createDeepResearchCheckTool (_config : Option ToolConfig) : ToolDefinition :=
  { id := "deep_researcher_check",
    description := "Check a deep research task",
    validate := specValidate ["taskId"] [],
    handler := fun http args =>
      .ok
        (match http "/research/tasks" (.obj [("taskId", .str (strField args "taskId"))]) with
         | .ok data => deepResearchCheckSuccess data
         | .error e => deepResearchCheckCatch e) }

/-- Modelled from the spec: `src/tools/exaCode.ts` is absent. -/
def createExaCodeTool (_config : Option ToolConfig) : ToolDefinition :=
  specTool "get_code_context_exa" "Get code context using Exa AI" "Code search"
    "/context" ["query"] ["tokensNum"]

/-- `TOOL_IDS` of `src/tools/registry.ts`: the fixed, closed identifier
set, in registry order. -/
def TOOL_IDS : List String :=
  ["web_search_exa",
   "deep_search_exa",
   "company_research_exa",
   "crawling_exa",
   "linkedin_search_exa",
   "deep_researcher_start",
   "deep_researcher_check",
   "get_code_context_exa"]

/-- `createToolRegistry` of `src/tools/registry.ts`: constructs the eight
tools fresh, in this fixed order, on every call. -/
def createToolRegistry (config : Option ToolConfig) : List ToolDefinition :=
  [createWebSearchTool config,
   createDeepSearchTool config,
   createCompanyResearchTool config,
   createCrawlingTool config,
   createLinkedInSearchTool config,
   createDeepResearchStartTool config,
   createDeepResearchCheckTool config,
   createExaCodeTool config]

/-- `getToolDefinition` of `src/tools/registry.ts`: rebuild the registry
and find the first tool whose identifier matches. -/
def getToolDefinition (toolId : String) (config : Option ToolConfig) :
    Option ToolDefinition :=
  (createToolRegistry config).find? (fun tool => tool.id == toolId)

/-- `formatError` of `src/cli.ts`: the canonical error-shaped result. -/
def formatError (message : String) : ToolResult :=
  { content := [⟨message⟩], isError := some true }

/-- `usage()` of `src/cli.ts` (apostrophes and JSON braces written as
character escapes). -/
def usage : String :=
  "\nUsage:\n  exa-cli <tool_id> --input \u0027<json>\u0027\n  exa-cli <tool_id> --input @path/to/input.json\n  exa-cli --list-tools\n\nExamples:\n  exa-cli web_search_exa --input \u0027\x7b\"query\":\"latest ai news\"\x7d\u0027\n  exa-cli get_code_context_exa --input \u0027\x7b\"query\":\"React useState hook examples\",\"tokensNum\":5000\x7d\u0027\n"

/-- One chunk written to a sink: either raw text (the usage string, the
stderr diagnostic) or, for `printJson`, the serialized payload together
with the pretty flag it would be serialized under (the host serializer is
injective on these payloads, so chunk equality is byte equality). -/
inductive OutChunk where
  | raw (s : String)
  | json (v : JsonVal) (pretty : Bool)

/-- How one `runCli` call ends: a returned exit code, or an uncaught
exception escaping as a rejected promise. -/
inductive CliResult where
  | exit (code : Nat)
  | thrown (e : JsThrown)

/-- One complete `runCli` invocation: its ending plus everything written
to the output and error sinks. -/
structure CliRun where
  result : CliResult
  stdout : List OutChunk
  stderr : List String

/-- The body of `runCli`'s try block (`src/cli.ts`, lines 192–198):
`JSON.parse` the input, bind it through the tool's schema, invoke the
handler; any of the three may throw. -/
def dispatchTool (env : CliEnv) (tool : ToolDefinition) (input : String) :
    Except JsThrown ToolResult :=
  match env.jsonParse input with
  | .error e => .error e
  | .ok parsed =>
    match tool.validate parsed with
    | .error e => .error e
    | .ok args => tool.handler env.http args

/-- `runCli` of `src/cli.ts`: parse flags; help; list-tools; missing
identifier; registry lookup; input resolution (NOT inside the try block —
a resolver rejection escapes as `.thrown`); the missing-input check; then
the try block around parse/validate/invoke with its `CLI error:` catch. -/
def runCli (env : CliEnv) (argv : List String) : CliRun :=
  match parseArgs argv with
  | (toolId, options) =>
    if options.help then
      { result := .exit 0, stdout := [.raw usage], stderr := [] }
    else if options.listTools then
      let tools := createToolRegistry (some {})
      let summary : JsonVal :=
        .arr (tools.map fun tool =>
          .obj [("id", .str tool.id), ("description", .str tool.description)])
      { result := .exit 0, stdout := [.json summary true], stderr := [] }
    else if toolId.getD "" = "" then
      { result := .exit 1, stdout := [.raw usage], stderr := ["Missing tool_id.\n"] }
    else
      let tid := toolId.getD ""
      let config : ToolConfig := { exaApiKey := options.apiKey }
      match getToolDefinition tid (some config) with
      | none =>
          { result := .exit 1,
            stdout := [.json (formatError s!"Unknown tool: {tid}").toJson options.pretty],
            stderr := [] }
      | some tool =>
        match resolveInput env options with
        | .error e => { result := .thrown e, stdout := [], stderr := [] }
        | .ok inputOpt =>
          if inputOpt.getD "" = "" then
            { result := .exit 1,
              stdout := [.json (formatError "Missing --input JSON or stdin input.").toJson
                options.pretty],
              stderr := [] }
          else
            match dispatchTool env tool (inputOpt.getD "") with
            | .ok result =>
                { result := .exit (if result.isError.getD false then 1 else 0),
                  stdout := [.json result.toJson options.pretty],
                  stderr := [] }
            | .error e =>
                { result := .exit 1,
                  stdout := [.json (formatError s!"CLI error: {errMessage e}").toJson
                    options.pretty],
                  stderr := [] }

/-- The entry-point block at the bottom of `src/cli.ts`: a non-zero code
from `runCli` becomes the process exit code, and a rejection of the
`runCli` promise is caught, written as `CLI error: <message>` plus newline
to stderr, and turned into exit code 1. -/
def runEntry (env : CliEnv) (argv : List String) : Nat × List OutChunk × List String :=
  let run := runCli env argv
  match run.result with
  | .exit code => (code, run.stdout, run.stderr)
  | .thrown e => (1, run.stdout, run.stderr ++ [s!"CLI error: {errMessage e}\n"])

/-- The stdin leg of input resolution, written from the spec's words
(§4.1 steps 4–6): terminal-ness is the explicit boolean flag if present,
else non-finiteness of a numeric size property, else false; a terminal
yields absent; otherwise the stream is drained (a drain error propagates)
and the exact drained text is returned unless it is empty after trimming,
in which case resolution yields absent. -/
def specStdinResolution (stdin : StdinLike) : Except JsThrown (Option String) :=
  let isTerminal : Bool :=
    match stdin.isTTY with
    | some b => b
    | none =>
      match stdin.size with
      | some n => !n.isFinite
      | none => false
  if isTerminal then .ok none
  else
    match readStdin stdin with
    | .ok drained => .ok (if (jsTrim drained).length ≠ 0 then some drained else none)
    | .error e => .error e

/-- A concrete host environment used by the witnesses: a tiny file system,
a terminal stdin, a `JSON.parse` that accepts exactly the text `INPUT`,
and an HTTP layer that always answers with one result. -/
def envW : CliEnv :=
  { fs := fun p =>
      if p = "/in.json" then .ok "INPUT"
      else if p = "/empty.json" then .ok ""
      else .error (.error "ENOENT: no such file or directory"),
    stdin := { isTTY := some true },
    jsonParse := fun s =>
      if s = "INPUT" then .ok (.obj [("url", .str "https://example.com")])
      else .error (.error "Unexpected token"),
    http := fun _ _ => .ok (.obj [("results", .arr [.str "r1"])]) }

/-- Modelled from the spec: the three-way error-message law of §4.4/§8,
written from the spec's words — `"<Label> error (<statusCode>): <message>"`
for a recognized remote failure (status of the received response, else the
literal `unknown`; body `message` field when it is a string, else the
failure's own message), `"<Label> error: <message>"` for a generic
`Error`, `"<Label> error: <String(value)>"` for any other thrown value. -/
def specToolErrorText (label : String) (e : JsThrown) : String :=
  match e with
  | .axiosErr response msg =>
      let statusText : String :=
        match response with
        | some r => toString r.status
        | none => "unknown"
      let messageText : String :=
        match response.bind (·.data) with
        | some (.obj fields) =>
            match fields.lookup "message" with
            | some (.str s) => s
            | _ => msg
        | some _ => msg
        | none => msg
      s!"{label} error ({statusText}): {messageText}"
  | .error m => s!"{label} error: {m}"
  | .other s => s!"{label} error: {s}"

/-- An HTTP layer that always rejects with a recognized remote failure:
status 404, body `\x7bmessage: "Not found"\x7d`, own message `Not found`
(the failure of the staged deepResearchCheck 404 test). -/
def http404 : HttpEnv := fun _ _ =>
  .error (.axiosErr
    (some { status := 404, data := some (.obj [("message", .str "Not found")]) })
    "Not found")

/-- Case analysis of `resolveInput` along its four precedence branches
(shared helper for the resolver claims). -/
theorem resolveInput_eval (env : CliEnv) (options : CliOptions) :
    (options.inputFile.getD "" ≠ "" →
      resolveInput env options = (env.fs (options.inputFile.getD "")).map some)
  ∧ (options.inputFile.getD "" = "" →
      startsWithAt (options.input.getD "") = true →
      resolveInput env options = (env.fs (jsSliceOne (options.input.getD ""))).map some)
  ∧ (options.inputFile.getD "" = "" →
      startsWithAt (options.input.getD "") = false →
      options.input.getD "" ≠ "" →
      resolveInput env options = .ok (some (options.input.getD "")))
  ∧ (options.inputFile.getD "" = "" → options.input.getD "" = "" →
      resolveInput env options = specStdinResolution env.stdin) := by
  refine ⟨fun h1 => ?_, fun h1 h2 => ?_, fun h1 h2 h3 => ?_, fun h1 h2 => ?_⟩
  · rw [resolveInput, if_pos h1]
  · rw [resolveInput, if_neg (by simp [h1]), if_pos h2]
  · rw [resolveInput, if_neg (by simp [h1]), if_neg (by simp [h2]), if_pos h3]
  · rw [resolveInput, if_neg (by simp [h1])]
    simp only [h2]
    rw [if_neg (by simp [startsWithAt]), if_neg (by simp)]
    rw [specStdinResolution]
    cases htty : (match env.stdin.isTTY with
      | some b => b
      | none =>
        match env.stdin.size with
        | some n => !n.isFinite
        | none => false : Bool) with
    | true => simp [htty]
    | false =>
      simp only [htty, Bool.not_false, if_true, if_false, Bool.false_eq_true]
      cases hread : readStdin env.stdin with
      | ok drained => simp [Except.map]
      | error e => simp [Except.map]

/-- C2: input resolution evaluates its sources in the fixed precedence
order, first match winning — a truthy `--input-file` path is read (for
every value of `--input`, which is therefore ignored), else an
`@`-prefixed literal is read as a file, else a non-empty literal is
returned verbatim, else resolution falls to the stdin leg; in particular,
when both `--input-file` and `--input` are supplied, the resolved input is
the file's full contents. -/
theorem resolveInput_precedence (env : CliEnv) (options : CliOptions) :
    (options.inputFile.getD "" ≠ "" →
      resolveInput env options = (env.fs (options.inputFile.getD "")).map some)
  ∧ (options.inputFile.getD "" = "" →
      startsWithAt (options.input.getD "") = true →
      resolveInput env options = (env.fs (jsSliceOne (options.input.getD ""))).map some)
  ∧ (options.inputFile.getD "" = "" →
      startsWithAt (options.input.getD "") = false →
      options.input.getD "" ≠ "" →
      resolveInput env options = .ok (some (options.input.getD "")))
  ∧ (options.inputFile.getD "" = "" → options.input.getD "" = "" →
      resolveInput env options = specStdinResolution env.stdin) :=
  resolveInput_eval env options

/-- C2 witness: both `--input-file` and `--input` supplied; the file's
contents win and the literal is ignored. -/
theorem resolveInput_precedence_witness :
    resolveInput envW { inputFile := some "/in.json", input := some "IGNORED" }
      = .ok (some "INPUT") :=
  ((resolveInput_precedence envW
      { inputFile := some "/in.json", input := some "IGNORED" }).1 (by decide)).trans rfl

/-- C3: with no input file and no literal input, resolution follows the
terminal-ness chain (explicit boolean flag, else non-finite numeric size,
else not a terminal); a non-terminal stream is drained and the exact
untrimmed text returned when its trimmed length is non-zero, absent when
empty after trimming; a terminal yields absent. -/
theorem resolveInput_stdin_chain (env : CliEnv) (options : CliOptions)
    (hfile : options.inputFile.getD "" = "")
    (hlit : options.input.getD "" = "") :
    resolveInput env options = specStdinResolution env.stdin :=
  (resolveInput_eval env options).2.2.2 hfile hlit

/-- C3 witness: a stdin with no boolean flag and a finite numeric size is
not a terminal; its drained text comes back exactly, untrimmed. -/
theorem resolveInput_stdin_chain_witness :
    resolveInput
        { envW with stdin := { size := some (.fin 3), textFn := some (.ok "  hi  ") } } {}
      = .ok (some "  hi  ") :=
  (resolveInput_stdin_chain
      { envW with stdin := { size := some (.fin 3), textFn := some (.ok "  hi  ") } } {}
      rfl rfl).trans rfl

/-- C1 counterexample: `--input-file` names a missing file (the file
system rejects with an `ENOENT` error); `runCli` does NOT catch this — the
invocation ends as an uncaught rejection carrying the resolver failure,
and nothing (in particular no `CLI error:`-prefixed JSON result) is
written to the output sink. -/
theorem runCli_resolver_failure_escapes :
    (runCli envW ["crawling_exa", "--input-file", "/nope.json"]).result
        = .thrown (.error "ENOENT: no such file or directory")
  ∧ (runCli envW ["crawling_exa", "--input-file", "/nope.json"]).stdout = [] :=
  ⟨rfl, rfl⟩

/-- C1 amended: a resolver failure is not caught inside `runCli` — the
call to `resolveInput` sits before the try block, so the failure escapes
`runCli` as a rejection with nothing written to the output sink; the entry
point's final catch then converts it into the line
`CLI error: <message>` on the error sink with exit code 1. -/
theorem resolver_failure_escapes_to_entry (env : CliEnv) (argv : List String)
    (toolId : String) (options : CliOptions) (tool : ToolDefinition) (e : JsThrown)
    (hparse : parseArgs argv = (some toolId, options))
    (hhelp : options.help = false) (hlist : options.listTools = false)
    (hne : toolId ≠ "")
    (hlookup : getToolDefinition toolId (some { exaApiKey := options.apiKey }) = some tool)
    (hres : resolveInput env options = .error e) :
    runCli env argv = { result := .thrown e, stdout := [], stderr := [] }
      ∧ runEntry env argv = (1, [], [s!"CLI error: {errMessage e}\n"]) := by
  have hrun : runCli env argv = { result := .thrown e, stdout := [], stderr := [] } := by
    unfold runCli
    rw [hparse]
    simp [hhelp, hlist, hne, hlookup, hres]
  refine ⟨hrun, ?_⟩
  rw [runEntry, hrun]
  rfl


/-- C1 amended witness: the missing-file invocation reaches the entry
point's catch, which reports `CLI error: …` on stderr and exit code 1. -/
theorem resolver_failure_escapes_to_entry_witness :
    runEntry envW ["crawling_exa", "--input-file", "/nope.json"]
      = (1, [], ["CLI error: ENOENT: no such file or directory\n"]) :=
  (resolver_failure_escapes_to_entry envW ["crawling_exa", "--input-file", "/nope.json"]
      "crawling_exa" { inputFile := some "/nope.json" }
      (createCrawlingTool (some { exaApiKey := none }))
      (.error "ENOENT: no such file or directory")
      rfl rfl rfl (by decide) rfl rfl).2

/-- C10: when input resolution returns the empty string (for example an
existing but empty `--input-file`), the dispatcher treats it exactly like
absent input: the `Missing --input JSON or stdin input.` error-shaped
result is written and the exit code is 1. -/
theorem empty_resolved_input_is_missing (env : CliEnv) (argv : List String)
    (toolId : String) (options : CliOptions) (tool : ToolDefinition)
    (hparse : parseArgs argv = (some toolId, options))
    (hhelp : options.help = false) (hlist : options.listTools = false)
    (hne : toolId ≠ "")
    (hlookup : getToolDefinition toolId (some { exaApiKey := options.apiKey }) = some tool)
    (hres : resolveInput env options = .ok (some "")) :
    runCli env argv =
      { result := .exit 1,
        stdout := [.json (formatError "Missing --input JSON or stdin input.").toJson
          options.pretty],
        stderr := [] } := by
  unfold runCli
  rw [hparse]
  simp [hhelp, hlist, hne, hlookup, hres]

/-- C10 witness: `--input-file` names an existing empty file; the result
is the missing-input error and exit code 1. -/
theorem empty_resolved_input_is_missing_witness :
    runCli envW ["crawling_exa", "--input-file", "/empty.json"]
      = { result := .exit 1,
          stdout := [.json (formatError "Missing --input JSON or stdin input.").toJson false],
          stderr := [] } :=
  empty_resolved_input_is_missing envW ["crawling_exa", "--input-file", "/empty.json"]
    "crawling_exa" { inputFile := some "/empty.json" }
    (createCrawlingTool (some { exaApiKey := none }))
    rfl rfl rfl (by decide) rfl rfl

/-- Lookup helper: an identifier outside the fixed set matches none of the
eight registry entries. -/
theorem getToolDefinition_eq_none (toolId : String) (config : Option ToolConfig)
    (h : toolId ∉ TOOL_IDS) : getToolDefinition toolId config = none := by
  simp only [TOOL_IDS, List.mem_cons, List.not_mem_nil, or_false, not_or] at h
  obtain ⟨h1, h2, h3, h4, h5, h6, h7, h8⟩ := h
  have e1 := beq_eq_false_iff_ne.mpr (Ne.symm h1)
  have e2 := beq_eq_false_iff_ne.mpr (Ne.symm h2)
  have e3 := beq_eq_false_iff_ne.mpr (Ne.symm h3)
  have e4 := beq_eq_false_iff_ne.mpr (Ne.symm h4)
  have e5 := beq_eq_false_iff_ne.mpr (Ne.symm h5)
  have e6 := beq_eq_false_iff_ne.mpr (Ne.symm h6)
  have e7 := beq_eq_false_iff_ne.mpr (Ne.symm h7)
  have e8 := beq_eq_false_iff_ne.mpr (Ne.symm h8)
  simp [getToolDefinition, createToolRegistry, List.find?,
    createWebSearchTool, createDeepSearchTool, createCompanyResearchTool,
    createCrawlingTool, createLinkedInSearchTool, createDeepResearchStartTool,
    createDeepResearchCheckTool, createExaCodeTool, specTool,
    e1, e2, e3, e4, e5, e6, e7, e8]

/-- C4: a tool identifier outside the registry's fixed identifier set
never resolves to a tool (for any config), and the invocation — whatever
the other flags and whether input was supplied — writes the `Unknown
tool: <id>` error-shaped result to the output sink and returns exit
code 1. -/
theorem unknown_tool_rejected (env : CliEnv) (argv : List String)
    (toolId : String) (options : CliOptions)
    (hparse : parseArgs argv = (some toolId, options))
    (hhelp : options.help = false) (hlist : options.listTools = false)
    (hne : toolId ≠ "")
    (hid : toolId ∉ TOOL_IDS) :
    (∀ config, getToolDefinition toolId config = none)
  ∧ runCli env argv =
      { result := .exit 1,
        stdout := [.json (formatError s!"Unknown tool: {toolId}").toJson options.pretty],
        stderr := [] } := by
  refine ⟨fun config => getToolDefinition_eq_none toolId config hid, ?_⟩
  unfold runCli
  rw [hparse]
  simp [hhelp, hlist, hne, getToolDefinition_eq_none _ _ hid]

/-- C4 witness: the identifier `nope`, with input supplied. -/
theorem unknown_tool_rejected_witness :
    runCli envW ["nope", "--input", "x"]
      = { result := .exit 1,
          stdout := [.json (formatError "Unknown tool: nope").toJson false],
          stderr := [] } :=
  (unknown_tool_rejected envW ["nope", "--input", "x"] "nope" { input := some "x" }
    rfl rfl rfl (by decide) (by decide)).2

/-- C5: once the handler returns a `ToolResult`, the exit code is
determined solely by its failure flag — 1 when `isError` is `true`, 0
otherwise — independent of the result's content blocks, which are written
to the output sink unchanged. -/
theorem exit_code_follows_isError (env : CliEnv) (argv : List String)
    (toolId : String) (options : CliOptions) (tool : ToolDefinition)
    (s : String) (j a : JsonVal) (r : ToolResult)
    (hparse : parseArgs argv = (some toolId, options))
    (hhelp : options.help = false) (hlist : options.listTools = false)
    (hne : toolId ≠ "")
    (hlookup : getToolDefinition toolId (some { exaApiKey := options.apiKey }) = some tool)
    (hres : resolveInput env options = .ok (some s)) (hs : s ≠ "")
    (hjson : env.jsonParse s = .ok j)
    (hbind : tool.validate j = .ok a)
    (hhandler : tool.handler env.http a = .ok r) :
    runCli env argv =
      { result := .exit (if r.isError.getD false then 1 else 0),
        stdout := [.json r.toJson options.pretty],
        stderr := [] } := by
  unfold runCli
  rw [hparse]
  simp [hhelp, hlist, hne, hlookup, hres, hs, dispatchTool, hjson, hbind, hhandler]

/-- C5 witness: a crawling invocation whose handler returns a result with
no failure flag exits with code 0. -/
theorem exit_code_follows_isError_witness :
    runCli envW ["crawling_exa", "--input", "INPUT"]
      = { result := .exit 0,
          stdout := [.json (ToolResult.toJson
            { content := [⟨stringifyJsonIndent 0 (.obj [("results", .arr [.str "r1"])])⟩] })
            false],
          stderr := [] } :=
  exit_code_follows_isError envW ["crawling_exa", "--input", "INPUT"]
    "crawling_exa" { input := some "INPUT" }
    (createCrawlingTool (some { exaApiKey := none }))
    "INPUT" (.obj [("url", .str "https://example.com")])
    (.obj [("url", .str "https://example.com")])
    { content := [⟨stringifyJsonIndent 0 (.obj [("results", .arr [.str "r1"])])⟩] }
    rfl rfl rfl (by decide) rfl rfl (by decide) rfl rfl rfl

/-- C6: a resolved input that fails `JSON.parse`, and a parsed input that
fails the tool's schema validation, are handled by the same catch: both
produce the error-shaped result `CLI error: <message>` and exit code 1. -/
theorem cli_error_umbrella (env : CliEnv) (argv : List String)
    (toolId : String) (options : CliOptions) (tool : ToolDefinition) (e : JsThrown)
    (hparse : parseArgs argv = (some toolId, options))
    (hhelp : options.help = false) (hlist : options.listTools = false)
    (hne : toolId ≠ "")
    (hlookup : getToolDefinition toolId (some { exaApiKey := options.apiKey }) = some tool)
    (s : String)
    (hres : resolveInput env options = .ok (some s)) (hs : s ≠ "")
    (hfail : env.jsonParse s = .error e
      ∨ ∃ j, env.jsonParse s = .ok j ∧ tool.validate j = .error e) :
    runCli env argv =
      { result := .exit 1,
        stdout := [.json (formatError s!"CLI error: {errMessage e}").toJson options.pretty],
        stderr := [] } := by
  unfold runCli
  rw [hparse]
  rcases hfail with hjson | ⟨j, hjson, hbind⟩
  · simp [hhelp, hlist, hne, hlookup, hres, hs, dispatchTool, hjson]
  · simp [hhelp, hlist, hne, hlookup, hres, hs, dispatchTool, hjson, hbind]

/-- C6 witness: malformed JSON yields the `CLI error:`-prefixed result and
exit code 1. -/
theorem cli_error_umbrella_witness :
    runCli envW ["crawling_exa", "--input", "not-json"]
      = { result := .exit 1,
          stdout := [.json (formatError "CLI error: Unexpected token").toJson false],
          stderr := [] } :=
  cli_error_umbrella envW ["crawling_exa", "--input", "not-json"]
    "crawling_exa" { input := some "not-json" }
    (createCrawlingTool (some { exaApiKey := none }))
    (.error "Unexpected token")
    rfl rfl rfl (by decide) rfl "not-json" rfl (by decide) (Or.inl rfl)

/-- The shared catch shape agrees with the spec's three-way law, for every
label. -/
theorem toolCatch_matches_spec (label : String) (e : JsThrown) :
    toolCatch label e
      = { content := [⟨specToolErrorText label e⟩], isError := some true } := by
  cases e with
  | axiosErr response msg =>
    cases response with
    | none => rfl
    | some r =>
      obtain ⟨status, data⟩ := r
      cases data with
      | none => rfl
      | some body =>
        cases body with
        | null => rfl
        | bool b => rfl
        | num n => rfl
        | str s => rfl
        | arr xs => rfl
        | obj fields =>
          cases hlk : fields.lookup "message" with
          | none =>
              simp [toolCatch, getAxiosErrorInfo, getResponseMessage,
                specToolErrorText, StatusCode.render, hlk]
          | some v =>
              cases v <;>
                simp [toolCatch, getAxiosErrorInfo, getResponseMessage,
                  specToolErrorText, StatusCode.render, hlk]
  | error m => rfl
  | other s => rfl

/-- The crawling tool's own catch block is the shared shape with its
label. -/
theorem crawlingCatch_eq_toolCatch (e : JsThrown) :
    crawlingCatch e = toolCatch "Crawling" e := by
  unfold crawlingCatch toolCatch
  cases getAxiosErrorInfo e <;> rfl

/-- The LinkedIn tool's own catch block is the shared shape with its
label. -/
theorem linkedInSearchCatch_eq_toolCatch (e : JsThrown) :
    linkedInSearchCatch e = toolCatch "LinkedIn search" e := by
  unfold linkedInSearchCatch toolCatch
  cases getAxiosErrorInfo e <;> rfl

/-- The deepResearchCheck catch is the shared shape with the
`Research check` label, except on a recognized remote failure with
response status 404, where it is the special `Task not found` result. -/
theorem deepResearchCheckCatch_cases (e : JsThrown) :
    deepResearchCheckCatch e =
      if isStatus404 e then { content := [⟨"Task not found"⟩], isError := some true }
      else toolCatch "Research check" e := by
  unfold deepResearchCheckCatch isStatus404 toolCatch
  cases hg : getAxiosErrorInfo e with
  | none => rfl
  | some info =>
      by_cases h404 : info.statusCode = .num 404
      · simp [h404]
      · simp [h404]
        rfl

/-- C7 counterexample: the `deep_researcher_check` handler, given a
recognized remote failure with response status 404 and body message
`Not found` (the failure of its staged 404 test), produces the text
`Task not found` — which is not the three-way law's text
`Research check error (404): Not found`.  The universal claim is
therefore false of the program. -/
theorem deepResearchCheck_404_breaks_law :
    (createDeepResearchCheckTool (some { exaApiKey := none })).handler http404
        (.obj [("taskId", .str "task-1")])
      = .ok { content := [⟨"Task not found"⟩], isError := some true }
  ∧ "Task not found"
      ≠ specToolErrorText "Research check"
          (.axiosErr
            (some { status := 404, data := some (.obj [("message", .str "Not found")]) })
            "Not found") :=
  ⟨rfl, by decide⟩

/-- C7 amended: for every caught failure, the crawling and LinkedIn catch
blocks (present in `src/`) and the shared catch of the other modelled
tools produce exactly the spec's three-way text, flagged as an error; the
one exception, pinned by the staged deepResearchCheck test, is the
`deep_researcher_check` catch on a recognized remote failure with status
404, which produces the special `Task not found` result instead — its
every other failure follows the law with the `Research check` label. -/
theorem tool_error_message_law (label : String) (e : JsThrown) :
    crawlingCatch e = { content := [⟨specToolErrorText "Crawling" e⟩], isError := some true }
  ∧ linkedInSearchCatch e
      = { content := [⟨specToolErrorText "LinkedIn search" e⟩], isError := some true }
  ∧ toolCatch label e = { content := [⟨specToolErrorText label e⟩], isError := some true }
  ∧ deepResearchCheckCatch e =
      (if isStatus404 e then { content := [⟨"Task not found"⟩], isError := some true }
       else { content := [⟨specToolErrorText "Research check" e⟩], isError := some true }) := by
  refine ⟨(crawlingCatch_eq_toolCatch e).trans (toolCatch_matches_spec "Crawling" e),
    (linkedInSearchCatch_eq_toolCatch e).trans (toolCatch_matches_spec "LinkedIn search" e),
    toolCatch_matches_spec label e, ?_⟩
  rw [deepResearchCheckCatch_cases e]
  by_cases h404 : isStatus404 e = true
  · rw [if_pos h404, if_pos h404]
  · rw [if_neg h404, if_neg h404, toolCatch_matches_spec]

/-- Helper: any invocation parsed to `--list-tools` without `--help`
produces exactly the fixed summary, pretty-printed, with exit code 0. -/
theorem runCli_listTools (env : CliEnv) (argv : List String)
    (toolId : Option String) (options : CliOptions)
    (hparse : parseArgs argv = (toolId, options))
    (hhelp : options.help = false) (hlist : options.listTools = true) :
    runCli env argv =
      { result := .exit 0,
        stdout := [.json (.arr ((createToolRegistry (some {})).map fun tool =>
          .obj [("id", .str tool.id), ("description", .str tool.description)])) true],
        stderr := [] } := by
  unfold runCli
  rw [hparse]
  simp [hhelp, hlist]

/-- C8: `--list-tools` (without `--help`) writes a pretty-printed JSON
array of `id`/`description` records whose `id` fields are exactly the
registry's fixed identifier set in registry order, returns exit code 0,
and — registry construction being deterministic and side-effect-free — any
two such invocations produce identical output. -/
theorem list_tools_output (env env2 : CliEnv) (argv argv2 : List String)
    (toolId toolId2 : Option String) (options options2 : CliOptions)
    (hparse : parseArgs argv = (toolId, options))
    (hhelp : options.help = false) (hlist : options.listTools = true)
    (hparse2 : parseArgs argv2 = (toolId2, options2))
    (hhelp2 : options2.help = false) (hlist2 : options2.listTools = true) :
    runCli env argv =
      { result := .exit 0,
        stdout := [.json (.arr ((createToolRegistry (some {})).map fun tool =>
          .obj [("id", .str tool.id), ("description", .str tool.description)])) true],
        stderr := [] }
  ∧ (createToolRegistry (some {})).map ToolDefinition.id = TOOL_IDS
  ∧ runCli env argv = runCli env2 argv2 := by
  have h1 := runCli_listTools env argv toolId options hparse hhelp hlist
  have h2 := runCli_listTools env2 argv2 toolId2 options2 hparse2 hhelp2 hlist2
  exact ⟨h1, rfl, h1.trans h2.symm⟩

/-- C8 witness: two list-tools invocations with different environments and
extra flags produce identical output. -/
theorem list_tools_output_witness :
    runCli envW ["--list-tools"] = runCli { envW with stdin := {} } ["--pretty", "--list-tools"] :=
  (list_tools_output envW { envW with stdin := {} } ["--list-tools"]
    ["--pretty", "--list-tools"] none none {  listTools := true }
    { pretty := true, listTools := true } rfl rfl rfl rfl rfl rfl).2.2

/-- Helper: the shared catch never yields empty content. -/
theorem toolCatch_content_ne (label : String) (e : JsThrown) :
    (toolCatch label e).content ≠ [] := by
  unfold toolCatch
  cases getAxiosErrorInfo e <;> simp

/-- Helper: the crawling catch never yields empty content. -/
theorem crawlingCatch_content_ne (e : JsThrown) :
    (crawlingCatch e).content ≠ [] := by
  unfold crawlingCatch
  cases getAxiosErrorInfo e <;> simp

/-- Helper: the LinkedIn catch never yields empty content. -/
theorem linkedInSearchCatch_content_ne (e : JsThrown) :
    (linkedInSearchCatch e).content ≠ [] := by
  unfold linkedInSearchCatch
  cases getAxiosErrorInfo e <;> simp

/-- Helper: the deepResearchCheck success formatting never yields empty
content. -/
theorem deepResearchCheckSuccess_content_ne (data : JsonVal) :
    (deepResearchCheckSuccess data).content ≠ [] := by
  unfold deepResearchCheckSuccess
  split
  · simp
  · split <;> simp

/-- Helper: the deepResearchCheck catch never yields empty content. -/
theorem deepResearchCheckCatch_content_ne (e : JsThrown) :
    (deepResearchCheckCatch e).content ≠ [] := by
  unfold deepResearchCheckCatch
  cases getAxiosErrorInfo e with
  | none => simp
  | some info => by_cases h : info.statusCode = .num 404 <;> simp [h]

/-- Helper: every result of a spec-modelled tool handler has at least one
content block. -/
theorem specTool_content_ne (id d label ep : String) (ks ns : List String)
    (http : HttpEnv) (args : JsonVal) (r : ToolResult)
    (hr : (specTool id d label ep ks ns).handler http args = .ok r) :
    r.content ≠ [] := by
  simp only [specTool, Except.ok.injEq] at hr
  cases hcall : http ep args with
  | ok data => rw [hcall] at hr; simp [← hr]
  | error e => rw [hcall] at hr; rw [← hr]; exact toolCatch_content_ne label e

/-- C9: on every code path of every registered tool handler — success,
empty-response, recognized remote failure, generic failure, non-Error
thrown value — the returned result's content is non-empty, and so is the
content of every dispatcher-formatted error. -/
theorem result_content_never_empty (config : Option ToolConfig) (tool : ToolDefinition)
    (htool : tool ∈ createToolRegistry config) :
    (∀ (http : HttpEnv) (args : JsonVal) (r : ToolResult),
      tool.handler http args = .ok r → r.content ≠ [])
  ∧ (∀ m, (formatError m).content ≠ []) := by
  refine ⟨?_, fun m => by simp [formatError]⟩
  intro http args r hr
  simp only [createToolRegistry, List.mem_cons, List.not_mem_nil, or_false] at htool
  rcases htool with h | h | h | h | h | h | h | h
  · subst h; exact specTool_content_ne _ _ _ _ _ _ http args r hr
  · subst h; exact specTool_content_ne _ _ _ _ _ _ http args r hr
  · subst h; exact specTool_content_ne _ _ _ _ _ _ http args r hr
  · subst h
    simp only [createCrawlingTool, Except.ok.injEq] at hr
    subst hr
    cases hcall : http "/contents"
        (.obj [("ids", .arr [.str (strField args "url")]),
               ("text", .obj [("maxCharacters",
                 .num (numFieldOr args "maxCharacters" DEFAULT_MAX_CHARACTERS))]),
               ("livecrawl", .str "preferred")]) with
    | ok data =>
        by_cases hc : (!jsTruthy data || !jsTruthy (jsField data "results")) = true <;>
          simp [hc]
    | error e => simp [crawlingCatch_content_ne e]
  · subst h
    simp only [createLinkedInSearchTool, Except.ok.injEq] at hr
    subst hr
    cases hcall : http ENDPOINT_SEARCH
        (.obj [("query", .str (strField args "query")),
               ("type", .str (match jsField args "searchType" with
                 | .str "profiles" => ((["linkedin.com/in"] : List String), "keyword")
                 | .str "companies" => (["linkedin.com/company"], "keyword")
                 | _ => (["linkedin.com"], "neural")).2),
               ("numResults", .num (numFieldOr args "numResults" DEFAULT_NUM_RESULTS)),
               ("contents", .obj
                 [("text", .obj [("maxCharacters", .num DEFAULT_MAX_CHARACTERS)]),
                  ("livecrawl", .str "preferred")]),
               ("includeDomains", .arr ((match jsField args "searchType" with
                 | .str "profiles" => ((["linkedin.com/in"] : List String), "keyword")
                 | .str "companies" => (["linkedin.com/company"], "keyword")
                 | _ => (["linkedin.com"], "neural")).1.map .str))]) with
    | ok data =>
        by_cases hc : (!jsTruthy data || !jsTruthy (jsField data "results")) = true <;>
          simp [hc]
    | error e => simp [linkedInSearchCatch_content_ne e]
  · subst h; exact specTool_content_ne _ _ _ _ _ _ http args r hr
  · subst h
    simp only [createDeepResearchCheckTool, Except.ok.injEq] at hr
    subst hr
    cases hcall : http "/research/tasks"
        (.obj [("taskId", .str (strField args "taskId"))]) with
    | ok data => exact deepResearchCheckSuccess_content_ne data
    | error e => simp [deepResearchCheckCatch_content_ne e]
  · subst h; exact specTool_content_ne _ _ _ _ _ _ http args r hr

/-- C9 witness: the crawling tool's success result and the dispatcher's
error shape both carry at least one content block. -/
theorem result_content_never_empty_witness :
    (formatError "Missing --input JSON or stdin input.").content ≠ [] :=
  (result_content_never_empty (some { exaApiKey := none })
      (createCrawlingTool (some { exaApiKey := none }))
      (by unfold createToolRegistry
          exact List.mem_cons_of_mem _ (List.mem_cons_of_mem _ (List.mem_cons_of_mem _
            (List.mem_cons_self _ _))))).2
    "Missing --input JSON or stdin input."
